import Mathlib

/-!
Verification of the Hackvision2026 smart-offline caching SDK.

This file shallowly embeds the caching-decision engine of the repository:
the standalone priority module (`src/priority.cjs`), the configuration
builder (`src/config.js`), and the two service-worker revisions
(`smart-offline-sw.js` at the repository root, called the v1 worker below,
and `citizen-portal-demo/public/smart-offline-sw.js`, called the
citizen-portal revision).  Machine integers are modelled as `Int` (JS
numbers on the integral values these programs manipulate), `Infinity` as a
dedicated constructor, absent JS values (`null`/`undefined`) as `Option`,
and the ordered keys of a JS object literal as an association list in
insertion order.
-/

/-- JS `s.includes(pat)`: substring containment on strings. -/
def jsIncludes (s pat : String) : Bool := decide (pat.toList <:+: s.toList)

/-- A record of the IndexedDB "usage" store: `{ url, count, lastAccessed }`. -/
structure UsageRecord where
  url : String
  count : Int
  lastAccessed : Int
deriving DecidableEq, Repr

/-- A JS numeric size bound: either a finite number or `Infinity`. -/
inductive MaxSize where
  | fin (m : Int)
  | inf
deriving DecidableEq, Repr

/-- The bound is nonnegative (a byte ceiling, as the data model types it). -/
def MaxSize.isNonneg : MaxSize → Bool
  | .inf => true
  | .fin m => decide (0 ≤ m)

namespace Priority

/-- Configuration as the standalone priority module consumes it: every field
may be absent (`config = {}` is a legal argument in `src/priority.cjs`). -/
structure PriorityConfig where
  significance : Option (List (String × String)) := none
  frequencyThreshold : Option Int := none
  recencyThreshold : Option Int := none
  maxResourceSize : Option MaxSize := none

/-- Function `matchesSignificance(url, significance)` from `src/priority.cjs`: walk the
significance patterns in insertion order and return the value of the first
pattern whose substring the url contains, else `null`.  (The
`hasOwnProperty` guard in the source is always true for the own enumerated
keys that the association list models.) -/
def matchesSignificance (url : String) : List (String × String) → Option String
  | [] => none
  | (pat, v) :: rest =>
      if jsIncludes url pat then some v else matchesSignificance url rest

/-- The significance verdict `isHighPriority` computes: `null` when
`config.significance` is absent (falsy), otherwise the first match. -/
def significanceResult (url : String) (config : PriorityConfig) : Option String :=
  match config.significance with
  | some sig => matchesSignificance url sig
  | none => none

/-- Function `isHighPriority(usage, url, config)` from `src/priority.cjs`.  `Date.now()`
is passed explicitly as `now`. -/
def isHighPriority (usage : Option UsageRecord) (url : String)
    (config : PriorityConfig) (now : Int) : Bool :=
  let sig := significanceResult url config
  if sig = some "high" then true
  else if sig = some "low" then false
  else
    match usage with
    | none => false
    | some u =>
        let freqThreshold := config.frequencyThreshold.getD 3
        let recencyThreshold := config.recencyThreshold.getD 86400000
        let frequent := decide (freqThreshold ≤ u.count)
        let recent := decide (now - u.lastAccessed ≤ recencyThreshold)
        frequent || recent

/-- Function `getEffectiveNetworkQuality(effectiveType, configNetwork)` from
`src/priority.cjs`.  `effectiveType = none` models the falsy argument
(`null`/`undefined`); a present empty string lands in the same `"fast"`
branch in both the source and this embedding. -/
def getEffectiveNetworkQuality (effectiveType : Option String)
    (configNetwork : String) : String :=
  if configNetwork ≠ "auto" then configNetwork
  else
    match effectiveType with
    | none => "fast"
    | some t => if t ∈ ["slow-2g", "2g", "3g"] then "slow" else "fast"

/-- Function `shouldSkipBySize(size, config)` from `src/priority.cjs`:
`if (!size) return false; return size > max;` with `max` defaulting to
`Infinity`. -/
def shouldSkipBySize (size : Option Int) (config : PriorityConfig) : Bool :=
  let max := config.maxResourceSize.getD MaxSize.inf
  match size with
  | none => false
  | some s =>
      if s = 0 then false
      else
        match max with
        | MaxSize.inf => false
        | MaxSize.fin m => decide (m < s)

end Priority

namespace Config

/-- The caller-supplied input object of `buildConfig` (`src/config.js`): every
field may be absent. -/
structure ConfigInput where
  pages : Option (List String) := none
  apis : Option (List String) := none
  debug : Option Bool := none
  frequencyThreshold : Option Int := none
  recencyThreshold : Option Int := none
  maxResourceSize : Option MaxSize := none
  networkQuality : Option String := none
  significance : Option (List (String × String)) := none

/-- The fully-defaulted SDK configuration object, which is also the shape of
the service workers' `SDK_CONFIG` global. -/
structure SdkConfig where
  pages : List String
  apis : List String
  debug : Bool
  frequencyThreshold : Int
  recencyThreshold : Int
  maxResourceSize : MaxSize
  networkQuality : String
  significance : List (String × String)
deriving DecidableEq, Repr

/-- Function `buildConfig(input)` from `src/config.js`.  The source merges list and
boolean fields with `||` and numeric/string fields with `??`; on the types
involved (`[]` and `{}` are truthy in JS, `false || false = false`) both
operators coincide with "absent triggers the default", which `Option.getD`
models. -/
def buildConfig (input : ConfigInput) : SdkConfig :=
  { pages := input.pages.getD []
    apis := input.apis.getD []
    debug := input.debug.getD false
    frequencyThreshold := input.frequencyThreshold.getD 3
    recencyThreshold := input.recencyThreshold.getD 86400000
    maxResourceSize := input.maxResourceSize.getD MaxSize.inf
    networkQuality := input.networkQuality.getD "auto"
    significance := input.significance.getD [] }

/-- View a fully-defaulted configuration through the optional-field shape the
standalone priority module consumes. -/
def SdkConfig.toPriorityConfig (c : SdkConfig) : Priority.PriorityConfig :=
  { significance := some c.significance
    frequencyThreshold := some c.frequencyThreshold
    recencyThreshold := some c.recencyThreshold
    maxResourceSize := some c.maxResourceSize }

end Config

/-- C8: `buildConfig({})` yields exactly the documented defaults, and an
explicitly provided falsy numeric value survives the merge:
`buildConfig({frequencyThreshold: 0})` keeps `0`, not the default `3`. -/
theorem C8_buildConfig_defaults :
    Config.buildConfig {} =
      { pages := [], apis := [], debug := false, frequencyThreshold := 3,
        recencyThreshold := 86400000, maxResourceSize := MaxSize.inf,
        networkQuality := "auto", significance := [] } ∧
    (Config.buildConfig { frequencyThreshold := some 0 }).frequencyThreshold = 0 :=
  ⟨rfl, rfl⟩

/-- C7: `shouldSkipBySize` returns `false` on an absent size and on the
unknown-size sentinel `0` for every configuration; with a finite nonnegative
`maxResourceSize` it implements a strict greater-than comparison, so a size
exactly at the limit is not skipped while `limit + 1` is skipped. -/
theorem C7_shouldSkipBySize (cfg : Priority.PriorityConfig) (m : Int) :
    Priority.shouldSkipBySize none cfg = false ∧
    Priority.shouldSkipBySize (some 0) cfg = false ∧
    (0 ≤ m → cfg.maxResourceSize = some (MaxSize.fin m) →
      (∀ s : Int, s ≠ 0 →
          Priority.shouldSkipBySize (some s) cfg = decide (m < s)) ∧
      Priority.shouldSkipBySize (some m) cfg = false ∧
      Priority.shouldSkipBySize (some (m + 1)) cfg = true) := by
  refine ⟨rfl, by simp [Priority.shouldSkipBySize], ?_⟩
  intro hm hmax
  refine ⟨?_, ?_, ?_⟩
  · intro s hs
    simp [Priority.shouldSkipBySize, hmax, hs]
  · simp [Priority.shouldSkipBySize, hmax]
  · have hne : m + 1 ≠ 0 := by omega
    simp [Priority.shouldSkipBySize, hmax, hne]

/-- Witness for C7 at the configuration `{maxResourceSize: 1000}`. -/
theorem C7_shouldSkipBySize_witness :
    Priority.shouldSkipBySize (some 1000)
        { maxResourceSize := some (MaxSize.fin 1000) } = false ∧
    Priority.shouldSkipBySize (some 1001)
        { maxResourceSize := some (MaxSize.fin 1000) } = true := by
  have h := (C7_shouldSkipBySize { maxResourceSize := some (MaxSize.fin 1000) }
    1000).2.2 (by decide) rfl
  exact ⟨h.2.1, h.2.2⟩

namespace SW

/-- The significance loop shared by both service-worker revisions
(`smart-offline-sw.js:93-100` and the citizen-portal copy, which differs only
in debug logging): walk the patterns in insertion order, return at the first
matching `high` (true) or `low` (false), and keep scanning past a matching
`normal`.  `none` means the loop fell through. -/
def scanSignificance (url : String) : List (String × String) → Option Bool
  | [] => none
  | (pat, v) :: rest =>
      if jsIncludes url pat then
        if v = "high" then some true
        else if v = "low" then some false
        else scanSignificance url rest
      else scanSignificance url rest

/-- Function `isHighPriority(usage, url)` of the service-worker revisions, with the
`SDK_CONFIG` global passed explicitly and `Date.now()` passed as `now`. -/
def isHighPriority (usage : Option UsageRecord) (url : String)
    (cfg : Config.SdkConfig) (now : Int) : Bool :=
  match scanSignificance url cfg.significance with
  | some b => b
  | none =>
      match usage with
      | none => false
      | some u =>
          decide (cfg.frequencyThreshold ≤ u.count) ||
            decide (now - u.lastAccessed ≤ cfg.recencyThreshold)

/-- Function `getEffectiveNetworkQuality()` of the service-worker revisions, with the
`navigator.connection.effectiveType` reading passed as `conn` (`none` models
an absent connection object or effective type). -/
def getEffectiveNetworkQuality (conn : Option String)
    (cfg : Config.SdkConfig) : String :=
  if cfg.networkQuality ≠ "auto" then cfg.networkQuality
  else
    match conn with
    | some t => if t ∈ ["slow-2g", "2g", "3g"] then "slow" else "fast"
    | none => "fast"

/-- The size guard of both success paths: `size > SDK_CONFIG.maxResourceSize`
on the parsed content length. -/
def sizeExceeds (s : Int) : MaxSize → Bool
  | MaxSize.inf => false
  | MaxSize.fin m => decide (m < s)

/-- The admission decision of the v1 worker's success path
(`smart-offline-sw.js:177-219`): `true` exactly when the response clone is
written to the cache.  `contentLength` is the parsed `content-length` header
(`none` when absent, defaulted to `0` by the source). -/
def successAdmits (contentLength : Option Int) (conn : Option String)
    (url : String) (cfg : Config.SdkConfig) (now : Int) : Bool :=
  let size : Int := contentLength.getD 0
  if sizeExceeds size cfg.maxResourceSize then false
  else if getEffectiveNetworkQuality conn cfg = "slow" &&
      !isHighPriority none url cfg now then false
  else true

end SW

/-- What an intercepted fetch ultimately resolves to on the failure path. -/
inductive FetchResult where
  | cached (body : String)
  | synthetic (status : Nat) (statusText : String) (contentType : String)
      (body : String)
  | undefinedResult
deriving DecidableEq, Repr

/-- The v1 worker's failure path (`smart-offline-sw.js:221-240`): after the
fire-and-forget usage update and the diagnostic priority log, it resolves
with `caches.match(request.url)` — the cached entry, or `undefined` when the
cache has no entry for the URL. -/
def SW.failureResult (cache : String → Option String) (url : String) :
    FetchResult :=
  match cache url with
  | some body => FetchResult.cached body
  | none => FetchResult.undefinedResult

namespace Citizen

/-- The admission decision of the citizen-portal revision's success path
(`citizen-portal-demo/public/smart-offline-sw.js:200-246`): the size guard,
then `shouldCache = isHighPriority(usage, url)` with the usage read back via
`getUsage`, the slow-network rejection, and finally `cache.put` only inside
`if (shouldCache)`. -/
def successAdmits (contentLength : Option Int) (conn : Option String)
    (usage : Option UsageRecord) (url : String) (cfg : Config.SdkConfig)
    (now : Int) : Bool :=
  let size : Int := contentLength.getD 0
  if SW.sizeExceeds size cfg.maxResourceSize then false
  else
    let shouldCache := SW.isHighPriority usage url cfg now
    if SW.getEffectiveNetworkQuality conn cfg = "slow" && !shouldCache then
      false
    else shouldCache

/-- The synthetic offline response of the citizen-portal revision:
`new Response(JSON.stringify({error: 'Offline and not cached'}), {status:
503, statusText: 'Service Unavailable', ...})`. -/
def offline503 : FetchResult :=
  FetchResult.synthetic 503 "Service Unavailable" "application/json"
    "\x7b\"error\":\"Offline and not cached\"\x7d"

/-- The citizen-portal revision's failure path
(`citizen-portal-demo/public/smart-offline-sw.js:247-278`): the cached entry
when present, otherwise the synthetic 503 response. -/
def failureResult (cache : String → Option String) (url : String) :
    FetchResult :=
  match cache url with
  | some body => FetchResult.cached body
  | none => offline503

end Citizen

namespace Priority

/-- When no significance pattern matches the url, `matchesSignificance`
returns `null`. -/
theorem matchesSignificance_eq_none {url : String}
    {sig : List (String × String)}
    (h : ∀ q ∈ sig, jsIncludes url q.1 = false) :
    matchesSignificance url sig = none := by
  induction sig with
  | nil => rfl
  | cons q rest ih =>
      have hq := h q (List.mem_cons_self q rest)
      simp only [matchesSignificance]
      rw [hq]
      simp only [Bool.false_eq_true, if_false]
      exact ih fun p hp => h p (List.mem_cons_of_mem q hp)

/-- The first-match characterisation of `matchesSignificance`: when nothing in
the prefix matches and `p` matches, the verdict is the value paired with
`p`. -/
theorem matchesSignificance_first (url p v : String)
    (pre post : List (String × String))
    (hpre : ∀ q ∈ pre, jsIncludes url q.1 = false)
    (hp : jsIncludes url p = true) :
    matchesSignificance url (pre ++ (p, v) :: post) = some v := by
  induction pre with
  | nil => simp [matchesSignificance, hp]
  | cons q rest ih =>
      have hq := hpre q (List.mem_cons_self q rest)
      simp only [List.cons_append, matchesSignificance]
      rw [hq]
      simp only [Bool.false_eq_true, if_false]
      exact ih fun r hr => hpre r (List.mem_cons_of_mem q hr)

end Priority

/-- C2 amended: the standalone module's `isHighPriority` is decided by the
first significance pattern whose substring the url contains: value `high` gives
`true` and value `low` gives `false` regardless of usage, while any other
value (in particular `normal`) makes the result equal to the result under an
empty significance map — the frequency/recency fallback — whatever patterns
follow the first match. -/
theorem C2_first_match_decides (url p v : String)
    (pre post : List (String × String)) (usage : Option UsageRecord)
    (ft rt : Option Int) (mx : Option MaxSize) (now : Int)
    (hpre : ∀ q ∈ pre, jsIncludes url q.1 = false)
    (hp : jsIncludes url p = true) :
    (v = "high" →
      Priority.isHighPriority usage url
        ⟨some (pre ++ (p, v) :: post), ft, rt, mx⟩ now = true) ∧
    (v = "low" →
      Priority.isHighPriority usage url
        ⟨some (pre ++ (p, v) :: post), ft, rt, mx⟩ now = false) ∧
    (v ≠ "high" → v ≠ "low" →
      Priority.isHighPriority usage url
          ⟨some (pre ++ (p, v) :: post), ft, rt, mx⟩ now =
        Priority.isHighPriority usage url ⟨some [], ft, rt, mx⟩ now) := by
  have hm := Priority.matchesSignificance_first url p v pre post hpre hp
  refine ⟨?_, ?_, ?_⟩
  · intro hv
    subst hv
    simp [Priority.isHighPriority, Priority.significanceResult, hm]
  · intro hv
    subst hv
    simp [Priority.isHighPriority, Priority.significanceResult, hm]
  · intro h1 h2
    simp [Priority.isHighPriority, Priority.significanceResult, hm,
      Priority.matchesSignificance, h1, h2]

/-- Witness for C2: with significance
`{"z": "high", "/a": "normal", "a": "low"}` and url `"/a"` (which the first
two patterns do not and do match respectively), a first match of `normal`
falls through to the frequency logic even though a later matching pattern
says `low` and the usage count is huge. -/
theorem C2_first_match_decides_witness :
    Priority.isHighPriority (some ⟨"/a", 1000000, 0⟩) "/a"
        ⟨some ([("z", "high")] ++ ("/a", "normal") :: [("a", "low")]),
          some 3, some 86400000, none⟩ 0 =
      Priority.isHighPriority (some ⟨"/a", 1000000, 0⟩) "/a"
        ⟨some [], some 3, some 86400000, none⟩ 0 :=
  (C2_first_match_decides "/a" "/a" "normal" [("z", "high")] [("a", "low")]
      (some ⟨"/a", 1000000, 0⟩) (some 3) (some 86400000) none 0
      (by decide) (by decide)).2.2 (by decide) (by decide)

/-- C2 counterexample: in the service-worker revisions' `isHighPriority`
(`smart-offline-sw.js:91-108`, also cited by the claim) a first matching
pattern of value `normal` does NOT stop the significance scan.  With
significance `{"/a": "normal", "/b": "high"}`, url `"/a/b"` and absent
usage, the claimed behaviour — stop at the first match and fall through to
the frequency/recency logic, which yields `false` on absent usage — is
contradicted: the workers' loop consults the later matching `high` pattern
and returns `true`. -/
theorem C2_worker_consults_later_patterns :
    SW.isHighPriority none "/a/b"
        ⟨[], [], false, 3, 86400000, MaxSize.inf, "auto",
          [("/a", "normal"), ("/b", "high")]⟩ 0 = true ∧
    Priority.isHighPriority none "/a/b"
        ⟨some [("/a", "normal")], some 3, some 86400000, none⟩ 0 = false := by
  constructor <;> rfl

/-- C5: when no significance pattern decides the verdict, `isHighPriority`
returns `false` on absent usage, and otherwise returns the logical OR of
frequency (`count >= frequencyThreshold`) and recency
(`now - lastAccessed <= recencyThreshold`); either condition alone forces
`true`. -/
theorem C5_fallback_or (url : String) (cfg : Priority.PriorityConfig)
    (now : Int)
    (h1 : Priority.significanceResult url cfg ≠ some "high")
    (h2 : Priority.significanceResult url cfg ≠ some "low") :
    Priority.isHighPriority none url cfg now = false ∧
    (∀ u : UsageRecord,
      Priority.isHighPriority (some u) url cfg now =
        (decide (cfg.frequencyThreshold.getD 3 ≤ u.count) ||
          decide (now - u.lastAccessed ≤ cfg.recencyThreshold.getD 86400000))) ∧
    (∀ u : UsageRecord, cfg.frequencyThreshold.getD 3 ≤ u.count →
      Priority.isHighPriority (some u) url cfg now = true) ∧
    (∀ u : UsageRecord, now - u.lastAccessed ≤ cfg.recencyThreshold.getD 86400000 →
      Priority.isHighPriority (some u) url cfg now = true) := by
  refine ⟨?_, ?_, ?_, ?_⟩
  · simp [Priority.isHighPriority, h1, h2]
  · intro u
    simp [Priority.isHighPriority, h1, h2]
  · intro u hu
    simp [Priority.isHighPriority, h1, h2, hu]
  · intro u hu
    simp [Priority.isHighPriority, h1, h2, hu]

/-- Witness for C5: with significance `{"/skip": "low"}` and url `"/a"`
(which does not contain `"/skip"`), stale-but-frequent usage (count 7 at
threshold 3, last access 40 days old) is high priority, recent-but-rare
usage (count 1, just accessed) is high priority, and absent usage is not. -/
theorem C5_fallback_or_witness :
    Priority.isHighPriority none "/a"
        ⟨some [("/skip", "low")], some 3, some 86400000, none⟩ 3456000000 = false ∧
    Priority.isHighPriority (some ⟨"/a", 7, 0⟩) "/a"
        ⟨some [("/skip", "low")], some 3, some 86400000, none⟩ 3456000000 = true ∧
    Priority.isHighPriority (some ⟨"/a", 1, 3456000000⟩) "/a"
        ⟨some [("/skip", "low")], some 3, some 86400000, none⟩ 3456000000 = true := by
  have h := C5_fallback_or "/a"
    ⟨some [("/skip", "low")], some 3, some 86400000, none⟩ 3456000000
    (by decide) (by decide)
  exact ⟨h.1, h.2.2.1 ⟨"/a", 7, 0⟩ (by decide), h.2.2.2 ⟨"/a", 1, 3456000000⟩ (by decide)⟩

/-- C6: `getEffectiveNetworkQuality` returns the configured mode unchanged
whenever the mode is not `auto`, returns `fast` on an absent connection type
in auto mode, classifies exactly `slow-2g`, `2g`, `3g` as `slow` in auto
mode (returning `fast`, the only other output, everywhere else), and the
service workers' revision of the function agrees with the module's. -/
theorem C6_network_quality :
    (∀ (t : Option String) (mode : String), mode ≠ "auto" →
      Priority.getEffectiveNetworkQuality t mode = mode) ∧
    Priority.getEffectiveNetworkQuality none "auto" = "fast" ∧
    (∀ s : String,
      (Priority.getEffectiveNetworkQuality (some s) "auto" = "slow" ↔
        s ∈ ["slow-2g", "2g", "3g"]) ∧
      (Priority.getEffectiveNetworkQuality (some s) "auto" = "slow" ∨
        Priority.getEffectiveNetworkQuality (some s) "auto" = "fast")) ∧
    (∀ (conn : Option String) (cfg : Config.SdkConfig),
      SW.getEffectiveNetworkQuality conn cfg =
        Priority.getEffectiveNetworkQuality conn cfg.networkQuality) := by
  refine ⟨?_, rfl, ?_, ?_⟩
  · intro t mode h
    simp [Priority.getEffectiveNetworkQuality, h]
  · intro s
    constructor
    · by_cases hs : s ∈ ["slow-2g", "2g", "3g"] <;>
        simp [Priority.getEffectiveNetworkQuality, hs]
    · by_cases hs : s ∈ ["slow-2g", "2g", "3g"] <;>
        simp [Priority.getEffectiveNetworkQuality, hs]
  · intro conn cfg
    by_cases h : cfg.networkQuality = "auto"
    · cases conn <;>
        simp [SW.getEffectiveNetworkQuality,
          Priority.getEffectiveNetworkQuality, h]
    · simp [SW.getEffectiveNetworkQuality,
        Priority.getEffectiveNetworkQuality, h]

/-- Witness for C6: a `fast` override dominates a 2g connection, `4g` in auto
mode classifies as fast, and `3g` as slow. -/
theorem C6_network_quality_witness :
    Priority.getEffectiveNetworkQuality (some "2g") "fast" = "fast" ∧
    Priority.getEffectiveNetworkQuality (some "4g") "auto" = "fast" ∧
    Priority.getEffectiveNetworkQuality (some "3g") "auto" = "slow" := by
  refine ⟨C6_network_quality.1 (some "2g") "fast" (by decide), ?_, ?_⟩
  · rcases (C6_network_quality.2.2.1 "4g").2 with h | h
    · exact absurd ((C6_network_quality.2.2.1 "4g").1.mp h) (by decide)
    · exact h
  · exact (C6_network_quality.2.2.1 "3g").1.mpr (by decide)

namespace Usage

/-- The record `trackUsage` creates when `store.get(url)` finds nothing:
`{ url, count: 0, lastAccessed: 0 }`. -/
def freshRecord (url : String) : UsageRecord :=
  { url := url, count := 0, lastAccessed := 0 }

/-- One sequential invocation of `trackUsage(url)` from
`smart-offline-sw.js:37-65`: load the existing record (or the fresh zero
record), increment `count`, stamp `lastAccessed` with `Date.now()` (passed as
`now`), and persist under the `url` key.  The IndexedDB read-modify-write is
modelled as one atomic step, which is exactly the claim's sequential
(non-concurrent) regime. -/
def trackStep (store : String → Option UsageRecord) (url : String)
    (now : Int) : String → Option UsageRecord := fun u =>
  if u = url then
    let data := (store url).getD (freshRecord url)
    some { data with count := data.count + 1, lastAccessed := now }
  else store u

/-- Sequential invocations of `trackUsage(url)`, one per timestamp. -/
def trackMany (store : String → Option UsageRecord) (url : String)
    (times : List Int) : String → Option UsageRecord :=
  times.foldl (fun s t => trackStep s url t) store

/-- Running `trackUsage` once per timestamp adds the number of calls to the
initial count and stamps the last timestamp. -/
theorem trackMany_lookup (url : String) :
    ∀ (times : List Int) (store : String → Option UsageRecord) (last : Int),
      times.getLast? = some last →
      trackMany store url times url =
        some { url := ((store url).getD (freshRecord url)).url,
               count := ((store url).getD (freshRecord url)).count + times.length,
               lastAccessed := last } := by
  intro times
  induction times with
  | nil => intro store last h; simp at h
  | cons t rest ih =>
      intro store last h
      cases rest with
      | nil =>
          simp only [List.getLast?_singleton, Option.some.injEq] at h
          subst h
          simp [trackMany, trackStep]
      | cons r rs =>
          rw [List.getLast?_cons_cons] at h
          have hrec := ih (trackStep store url t) last h
          simp only [trackMany, List.foldl_cons] at hrec ⊢
          rw [hrec]
          simp only [trackStep, if_pos rfl, Option.getD_some, Option.some.injEq,
            UsageRecord.mk.injEq, List.length_cons, true_and, and_true]
          push_cast
          simp only [Option.getD_some]
          exact ⟨trivial, by ring⟩

end Usage

/-- C9: starting from a store with no record for the url, the first tracked
access turns the fresh `count=0, lastAccessed=0` record into
`count=1, lastAccessed=t`, and `n` sequential tracked accesses yield
`count = n` with `lastAccessed` equal to the timestamp of the last call. -/
theorem C9_track_roundtrip (store : String → Option UsageRecord)
    (url : String) (times : List Int) (last : Int)
    (h0 : store url = none) (hlast : times.getLast? = some last) :
    (∀ t : Int, Usage.trackStep store url t url =
      some { url := url, count := 1, lastAccessed := t }) ∧
    Usage.trackMany store url times url =
      some { url := url, count := times.length, lastAccessed := last } := by
  constructor
  · intro t
    simp [Usage.trackStep, h0, Usage.freshRecord]
  · have h := Usage.trackMany_lookup url times store last hlast
    rw [h0] at h
    simpa [Usage.freshRecord] using h

/-- Witness for C9: tracking `"/a"` at times 5 then 9 from an empty store
gives count 1 after the first call and `count = 2, lastAccessed = 9` after
both. -/
theorem C9_track_roundtrip_witness :
    Usage.trackStep (fun _ => none) "/a" 5 "/a" =
      some { url := "/a", count := 1, lastAccessed := 5 } ∧
    Usage.trackMany (fun _ => none) "/a" [5, 9] "/a" =
      some { url := "/a", count := 2, lastAccessed := 9 } := by
  have h := C9_track_roundtrip (fun _ => none) "/a" [5, 9] 9 rfl (by decide)
  exact ⟨h.1 5, by simpa using h.2⟩

/-- The storage state `getUsage` runs against: whether the `"usage"` object
store has ever been created (only `trackUsage`'s `onupgradeneeded` creates
it), whether the `indexedDB.open` request errors, whether the `store.get`
request errors, and the persisted records. -/
structure DbState where
  storeCreated : Bool
  openFails : Bool
  getFails : Bool
  records : String → Option UsageRecord

/-- Function `getUsage(url)` from `smart-offline-sw.js:70-86`.  The outer `Option` is
the fate of the returned promise: `some v` means it resolves with `v`
(`some none` = resolves `null`/`undefined`, i.e. "absent"), while `none`
means it never resolves.  On an open error or a get error the source calls
`resolve(null)`.  But when the object store was never created, the source's
`db.transaction("usage", "readonly")` throws `NotFoundError` synchronously
inside the `onsuccess` handler — the executor has already returned, so the
promise is neither resolved nor rejected. -/
def getUsage (db : DbState) (url : String) : Option (Option UsageRecord) :=
  if db.openFails then some none
  else if db.storeCreated = false then none
  else if db.getFails then some none
  else some (db.records url)

/-- C4 (code bug): `getUsage` does resolve to absent for a never-tracked URL
and on open/get storage errors, but on the first-open state — the `"usage"`
object store not yet created — it never resolves at all: the transaction
call throws and no resolve handler runs, contradicting the claim that
`getUsage` always resolves. -/
theorem C4_getUsage_first_open_hangs :
    getUsage ⟨false, false, false, fun _ => none⟩ "/api/x" = none ∧
    getUsage ⟨true, false, false, fun _ => none⟩ "/api/x" = some none ∧
    getUsage ⟨true, true, false, fun _ => none⟩ "/api/x" = some none ∧
    getUsage ⟨true, false, true, fun _ => none⟩ "/api/x" = some none :=
  ⟨rfl, rfl, rfl, rfl⟩

namespace SW

/-- When no significance pattern matches the url, the workers' scan falls
through. -/
theorem scanSignificance_eq_none {url : String}
    {sig : List (String × String)}
    (h : ∀ q ∈ sig, jsIncludes url q.1 = false) :
    scanSignificance url sig = none := by
  induction sig with
  | nil => rfl
  | cons q rest ih =>
      have hq := h q (List.mem_cons_self q rest)
      simp only [scanSignificance]
      rw [hq]
      simp only [Bool.false_eq_true, if_false]
      exact ih fun p hp => h p (List.mem_cons_of_mem q hp)

/-- On significance maps in which at most one pattern matches the url, the
workers' scan agrees with the verdict of the standalone module's
first-match rule. -/
theorem scanSignificance_of_at_most_one_match (url : String) :
    ∀ sig : List (String × String),
      (sig.filter fun q => jsIncludes url q.1).length ≤ 1 →
      scanSignificance url sig =
        match Priority.matchesSignificance url sig with
        | some v =>
            if v = "high" then some true
            else if v = "low" then some false
            else none
        | none => none := by
  intro sig
  induction sig with
  | nil => intro _; rfl
  | cons q rest ih =>
      intro h
      obtain ⟨p, v⟩ := q
      by_cases hq : jsIncludes url p
      · have hfil : (rest.filter fun q => jsIncludes url q.1).length = 0 := by
          simp only [List.filter_cons, hq, if_pos, List.length_cons] at h
          omega
        have hrest : ∀ r ∈ rest, jsIncludes url r.1 = false := by
          intro r hr
          by_contra hne
          have : r ∈ rest.filter fun q => jsIncludes url q.1 :=
            List.mem_filter.mpr ⟨hr, by simpa using hne⟩
          rw [List.length_eq_zero] at hfil
          simp [hfil] at this
        have hsr := scanSignificance_eq_none hrest
        have hmr := Priority.matchesSignificance_eq_none hrest
        by_cases h1 : v = "high" <;> by_cases h2 : v = "low" <;>
          simp [scanSignificance, Priority.matchesSignificance, hq, hsr, hmr,
            h1, h2]
      · have h' : (rest.filter fun q => jsIncludes url q.1).length ≤ 1 := by
          simp only [List.filter_cons, hq] at h
          simpa using h
        simp [scanSignificance, Priority.matchesSignificance, hq, ih h']

end SW

/-- C10 counterexample: the two revisions of `isHighPriority` are not
equivalent.  With significance `{"/a": "normal", "/b": "low"}`, url
`"/a/b"` (matching both patterns) and frequent usage, the standalone module
stops at the first match (`normal`) and falls through to the frequency rule
(`true`), while the workers' loop keeps scanning, hits `low`, and returns
`false`. -/
theorem C10_not_equivalent :
    Priority.isHighPriority (some ⟨"/a/b", 5, 0⟩) "/a/b"
        (Config.SdkConfig.toPriorityConfig
          ⟨[], [], false, 3, 86400000, MaxSize.inf, "auto",
            [("/a", "normal"), ("/b", "low")]⟩) 0 = true ∧
    SW.isHighPriority (some ⟨"/a/b", 5, 0⟩) "/a/b"
        ⟨[], [], false, 3, 86400000, MaxSize.inf, "auto",
          [("/a", "normal"), ("/b", "low")]⟩ 0 = false := by
  constructor <;> rfl

/-- C10 amended: the two revisions of `isHighPriority` agree on every input
in which at most one significance pattern matches the url (in particular
whenever significance patterns are pairwise non-overlapping on the url);
they can differ only when the first matching pattern is `normal` and a later
pattern also matches. -/
theorem C10_agree_at_most_one_match (usage : Option UsageRecord)
    (url : String) (cfg : Config.SdkConfig) (now : Int)
    (h : (cfg.significance.filter fun q => jsIncludes url q.1).length ≤ 1) :
    Priority.isHighPriority usage url cfg.toPriorityConfig now =
      SW.isHighPriority usage url cfg now := by
  have hscan := SW.scanSignificance_of_at_most_one_match url cfg.significance h
  cases hm : Priority.matchesSignificance url cfg.significance with
  | none =>
      rw [hm] at hscan
      cases usage <;>
        simp [Priority.isHighPriority, Priority.significanceResult,
          Config.SdkConfig.toPriorityConfig, SW.isHighPriority, hscan, hm]
  | some v =>
      rw [hm] at hscan
      by_cases h1 : v = "high"
      · subst h1
        simp at hscan
        simp [Priority.isHighPriority, Priority.significanceResult,
          Config.SdkConfig.toPriorityConfig, SW.isHighPriority, hscan, hm]
      · by_cases h2 : v = "low"
        · subst h2
          simp at hscan
          simp [Priority.isHighPriority, Priority.significanceResult,
            Config.SdkConfig.toPriorityConfig, SW.isHighPriority, hscan, hm]
        · simp only [h1, h2, if_false] at hscan
          cases usage <;>
            simp [Priority.isHighPriority, Priority.significanceResult,
              Config.SdkConfig.toPriorityConfig, SW.isHighPriority, hscan, hm,
              h1, h2]

/-- Witness for C10 amended: with the single pattern `{"/x": "high"}` both
revisions answer `true` for `"/x"` with absent usage. -/
theorem C10_agree_at_most_one_match_witness :
    Priority.isHighPriority none "/x"
        (Config.SdkConfig.toPriorityConfig
          ⟨[], [], false, 3, 86400000, MaxSize.inf, "auto", [("/x", "high")]⟩) 0 =
      SW.isHighPriority none "/x"
        ⟨[], [], false, 3, 86400000, MaxSize.inf, "auto", [("/x", "high")]⟩ 0 :=
  C10_agree_at_most_one_match none "/x"
    ⟨[], [], false, 3, 86400000, MaxSize.inf, "auto", [("/x", "high")]⟩ 0
    (by decide)

/-- The workers' inline size guard agrees with the standalone
`shouldSkipBySize` whenever the configured ceiling is nonnegative or
unbounded (the only divergence would be a negative finite ceiling against
the unknown-size sentinel `0`). -/
theorem sizeExceeds_eq_shouldSkipBySize (s : Int) (cfg : Config.SdkConfig)
    (hm : cfg.maxResourceSize.isNonneg = true) :
    SW.sizeExceeds s cfg.maxResourceSize =
      Priority.shouldSkipBySize (some s) cfg.toPriorityConfig := by
  cases hmax : cfg.maxResourceSize with
  | inf =>
      simp [SW.sizeExceeds, Priority.shouldSkipBySize,
        Config.SdkConfig.toPriorityConfig, hmax]
  | fin m =>
      have hm0 : 0 ≤ m := by
        rw [hmax] at hm
        simpa [MaxSize.isNonneg] using hm
      by_cases hs : s = 0
      · subst hs
        have hnm : ¬m < 0 := not_lt.mpr hm0
        simp [SW.sizeExceeds, Priority.shouldSkipBySize,
          Config.SdkConfig.toPriorityConfig, hmax, hnm]
      · simp [SW.sizeExceeds, Priority.shouldSkipBySize,
          Config.SdkConfig.toPriorityConfig, hmax, hs]

/-- When the configured mode is one of the spec's enum values, the workers'
effective network quality is always the string `"fast"` or `"slow"`. -/
theorem swQuality_fast_or_slow (conn : Option String) (cfg : Config.SdkConfig)
    (hq : cfg.networkQuality = "auto" ∨ cfg.networkQuality = "fast" ∨
      cfg.networkQuality = "slow") :
    SW.getEffectiveNetworkQuality conn cfg = "fast" ∨
      SW.getEffectiveNetworkQuality conn cfg = "slow" := by
  rcases hq with h | h | h
  · cases conn with
    | none => left; simp [SW.getEffectiveNetworkQuality, h]
    | some t =>
        by_cases ht : t ∈ ["slow-2g", "2g", "3g"]
        · right; simp [SW.getEffectiveNetworkQuality, h, ht]
        · left; simp [SW.getEffectiveNetworkQuality, h, ht]
  · left; simp [SW.getEffectiveNetworkQuality, h]
  · right; simp [SW.getEffectiveNetworkQuality, h]

/-- C1 amended: with a spec-conformant configuration (mode one of
auto/fast/slow, ceiling nonnegative or unbounded), the v1 worker's success
path admits a response into the cache iff `shouldSkipBySize` is false for
its parsed content length AND (the effective network quality is `"fast"` OR
`isHighPriority` — evaluated, as the v1 source does, with absent usage —
holds for the url); the citizen-portal revision instead admits iff
`shouldSkipBySize` is false AND `isHighPriority(usage, url)` holds, so there
`isHighPriority` is required even on a fast network. -/
theorem C1_success_admission (contentLength : Option Int)
    (conn : Option String) (usage : Option UsageRecord) (url : String)
    (cfg : Config.SdkConfig) (now : Int)
    (hq : cfg.networkQuality = "auto" ∨ cfg.networkQuality = "fast" ∨
      cfg.networkQuality = "slow")
    (hm : cfg.maxResourceSize.isNonneg = true) :
    SW.successAdmits contentLength conn url cfg now =
      (!Priority.shouldSkipBySize (some (contentLength.getD 0))
          cfg.toPriorityConfig &&
        (decide (SW.getEffectiveNetworkQuality conn cfg = "fast") ||
          SW.isHighPriority none url cfg now)) ∧
    Citizen.successAdmits contentLength conn usage url cfg now =
      (!Priority.shouldSkipBySize (some (contentLength.getD 0))
          cfg.toPriorityConfig &&
        SW.isHighPriority usage url cfg now) := by
  have hskip := sizeExceeds_eq_shouldSkipBySize (contentLength.getD 0) cfg hm
  constructor
  · rcases swQuality_fast_or_slow conn cfg hq with hf | hs
    · cases hsk : Priority.shouldSkipBySize (some (contentLength.getD 0))
          cfg.toPriorityConfig <;>
        simp [SW.successAdmits, hskip, hsk, hf]
    · cases hsk : Priority.shouldSkipBySize (some (contentLength.getD 0))
          cfg.toPriorityConfig <;>
      cases hpri : SW.isHighPriority none url cfg now <;>
        simp [SW.successAdmits, hskip, hsk, hs, hpri]
  · rcases swQuality_fast_or_slow conn cfg hq with hf | hs
    · cases hsk : Priority.shouldSkipBySize (some (contentLength.getD 0))
          cfg.toPriorityConfig <;>
      cases hpri : SW.isHighPriority usage url cfg now <;>
        simp [Citizen.successAdmits, hskip, hsk, hf, hpri]
    · cases hsk : Priority.shouldSkipBySize (some (contentLength.getD 0))
          cfg.toPriorityConfig <;>
      cases hpri : SW.isHighPriority usage url cfg now <;>
        simp [Citizen.successAdmits, hskip, hsk, hs, hpri]

/-- C1 counterexample: on the citizen-portal revision's success path the
claimed iff fails — a small response on a fast (4g, auto) network with no
priority signal is NOT admitted, although the claim's right-hand side
(size check passes AND network is fast) says it must be. -/
theorem C1_citizen_fast_not_sufficient :
    Citizen.successAdmits (some 100) (some "4g") none "/api/data"
        ⟨[], [], false, 3, 86400000, MaxSize.inf, "auto", []⟩ 0 = false ∧
    (!Priority.shouldSkipBySize (some 100)
        (Config.SdkConfig.toPriorityConfig
          ⟨[], [], false, 3, 86400000, MaxSize.inf, "auto", []⟩) &&
      (decide (SW.getEffectiveNetworkQuality (some "4g")
          ⟨[], [], false, 3, 86400000, MaxSize.inf, "auto", []⟩ = "fast") ||
        SW.isHighPriority none "/api/data"
          ⟨[], [], false, 3, 86400000, MaxSize.inf, "auto", []⟩ 0)) = true := by
  constructor <;> rfl

/-- Witness for C1 amended, at the all-defaults configuration, a 100-byte
response, a 4g connection and no usage signal. -/
theorem C1_success_admission_witness :
    SW.successAdmits (some 100) (some "4g") "/api/data"
        ⟨[], [], false, 3, 86400000, MaxSize.inf, "auto", []⟩ 0 =
      (!Priority.shouldSkipBySize (some ((some (100 : Int)).getD 0))
          (Config.SdkConfig.toPriorityConfig
            ⟨[], [], false, 3, 86400000, MaxSize.inf, "auto", []⟩) &&
        (decide (SW.getEffectiveNetworkQuality (some "4g")
            ⟨[], [], false, 3, 86400000, MaxSize.inf, "auto", []⟩ = "fast") ||
          SW.isHighPriority none "/api/data"
            ⟨[], [], false, 3, 86400000, MaxSize.inf, "auto", []⟩ 0)) :=
  (C1_success_admission (some 100) (some "4g") none "/api/data"
    ⟨[], [], false, 3, 86400000, MaxSize.inf, "auto", []⟩ 0
    (Or.inl rfl) rfl).1

/-- C3 counterexample: the v1 worker's failure path resolves with exactly
what `caches.match` yields, so on a cache miss the intercepted fetch
resolves to `undefined` — not a synthetic service-unavailable response. -/
theorem C3_v1_resolves_undefined :
    SW.failureResult (fun _ => none) "/api/data" =
      FetchResult.undefinedResult := rfl

/-- C3 amended: on the citizen-portal revision the failure path never
resolves to `undefined`: it yields the cached entry when one exists and
otherwise the well-formed synthetic 503 JSON response.  The v1 worker
instead resolves to `undefined` on a cache miss. -/
theorem C3_citizen_failure_wellformed (cache : String → Option String)
    (url : String) :
    Citizen.failureResult cache url ≠ FetchResult.undefinedResult ∧
    (cache url = none →
      Citizen.failureResult cache url = Citizen.offline503) ∧
    (∀ body, cache url = some body →
      Citizen.failureResult cache url = FetchResult.cached body) := by
  refine ⟨?_, ?_, ?_⟩
  · cases h : cache url <;> simp [Citizen.failureResult, h, Citizen.offline503]
  · intro h
    simp [Citizen.failureResult, h]
  · intro body h
    simp [Citizen.failureResult, h]

/-- Witness for C3 amended: an empty cache yields the synthetic 503
response. -/
theorem C3_citizen_failure_wellformed_witness :
    Citizen.failureResult (fun _ => none) "/api/data" = Citizen.offline503 :=
  (C3_citizen_failure_wellformed (fun _ => none) "/api/data").2.1 rfl
